import Mathlib

/-!
Verification of the xiaozhi-esp32 device state machine and main event loop.

The definitions below are shallow embeddings of the C++ sources:
  - `DeviceState`, `isValidTransition`, `canTransitionTo`, `transitionTo`
    embed `main/device_state_machine.cc`;
  - `MainEvent`, `handlerOrder`, `dispatcherPass`, `runTasks`,
    `processSendAudio` embed the dispatcher loop in `Application::Run`
    (`main/application.cc`);
  - `handleToggleChat`, `handleStartListening`, `handleWakeWord`,
    `handleTtsStart`, `handleTtsStop`, `canEnterSleepMode` embed the
    corresponding `Application` handlers in `main/application.cc`.
`specTransitionTable` is the transition table as written in the design
document, used to compare the implementation against the documented graph.
-/

/-- Device states, in the declaration order of the firmware's enum
(the order of `STATE_STRINGS` in `device_state_machine.cc`). -/
inductive DeviceState
  | unknown
  | starting
  | wifiConfiguring
  | idle
  | connecting
  | listening
  | speaking
  | upgrading
  | activating
  | audioTesting
  | fatalError
  deriving DecidableEq, Fintype, Repr

/-- Embeds `DeviceStateMachine::IsValidTransition` from
`device_state_machine.cc`: self-transitions are always allowed, otherwise
the switch over the source state lists the allowed targets. -/
def isValidTransition (s t : DeviceState) : Bool :=
  if s = t then
    true
  else
    match s with
    | .unknown => t = .starting
    | .starting => t = .wifiConfiguring || t = .activating
    | .wifiConfiguring => t = .activating || t = .audioTesting
    | .audioTesting => t = .wifiConfiguring
    | .activating => t = .upgrading || t = .idle || t = .wifiConfiguring
    | .upgrading => t = .idle || t = .activating
    | .idle =>
        t = .connecting || t = .listening || t = .speaking ||
        t = .activating || t = .upgrading || t = .wifiConfiguring
    | .connecting => t = .idle || t = .listening
    | .listening => t = .speaking || t = .idle
    | .speaking => t = .listening || t = .idle
    | .fatalError => false

/-- Embeds `DeviceStateMachine::CanTransitionTo`: a pure table lookup from
the current state, no mutation. -/
def canTransitionTo (current target : DeviceState) : Bool :=
  isValidTransition current target

/-- The transition table exactly as written in the design document
(section 3, "Transition table"), as a list of directed edges. -/
def specTransitionTable : List (DeviceState × DeviceState) :=
  [(.unknown, .starting),
   (.starting, .wifiConfiguring), (.starting, .activating),
   (.wifiConfiguring, .activating), (.wifiConfiguring, .audioTesting),
   (.audioTesting, .wifiConfiguring),
   (.activating, .upgrading), (.activating, .idle), (.activating, .wifiConfiguring),
   (.upgrading, .idle), (.upgrading, .activating),
   (.idle, .connecting), (.idle, .listening), (.idle, .speaking),
   (.idle, .activating), (.idle, .upgrading), (.idle, .wifiConfiguring),
   (.connecting, .idle), (.connecting, .listening),
   (.listening, .speaking), (.listening, .idle),
   (.speaking, .listening), (.speaking, .idle)]

/-- Result of `DeviceStateMachine::TransitionTo`: the returned boolean, the
state stored afterwards, and the `(listener, old, new)` notifications
delivered, in registration order. -/
structure TransitionResult (L : Type) where
  ok : Bool
  state : DeviceState
  notified : List (L × DeviceState × DeviceState)
  deriving DecidableEq, Repr

/-- Embeds `DeviceStateMachine::TransitionTo`: a no-op success when the
target equals the current state; a failure leaving the state unchanged and
notifying nobody when the transition is invalid; otherwise the new state is
stored and every registered listener is called with `(old, new)` in
registration order (`NotifyStateChange` iterates a snapshot of the list). -/
def transitionTo {L : Type} (listeners : List L) (current target : DeviceState) :
    TransitionResult L :=
  if current = target then
    ⟨true, current, []⟩
  else if isValidTransition current target then
    ⟨true, target, listeners.map (fun l => (l, current, target))⟩
  else
    ⟨false, current, []⟩

/-- The state after a `TransitionTo` call, ignoring notifications. -/
def applyTransition (current target : DeviceState) : DeviceState :=
  (transitionTo (L := Unit) [] current target).state

/-- The state after a sequence of `TransitionTo` calls. -/
def runSeq (targets : List DeviceState) (start : DeviceState) : DeviceState :=
  targets.foldl applyTransition start

/-- The implemented transition predicate agrees with the documented table:
a shared helper used when reasoning about individual transitions. -/
lemma isValidTransition_iff_table (s t : DeviceState) :
    isValidTransition s t = true ↔ ((s, t) ∈ specTransitionTable ∨ s = t) := by
  revert s t
  decide

/-- Helper: `applyTransition` from a non-fatal state never lands in
`fatalError`, because no listed edge targets it. -/
lemma applyTransition_ne_fatal (s t : DeviceState) (h : s ≠ DeviceState.fatalError) :
    applyTransition s t ≠ DeviceState.fatalError := by
  revert s t
  decide

/-- Claim C1: for all ordered pairs `(s, t)` of device states,
`CanTransitionTo` with current state `s` and target `t` returns true iff
`(s, t)` is an edge of the documented transition table or `s = t`; in
particular `unknown` only reaches `starting` (besides itself),
`fatalError` reaches nothing but itself, and every state reaches itself. -/
theorem c1_canTransitionTo_iff_table :
    ∀ s t : DeviceState,
      (canTransitionTo s t = true ↔ ((s, t) ∈ specTransitionTable ∨ s = t)) ∧
      (canTransitionTo .unknown t = true ↔ (t = .starting ∨ t = .unknown)) ∧
      (canTransitionTo .fatalError t = true ↔ t = .fatalError) ∧
      canTransitionTo s s = true := by
  decide

/-- Claim C2: for distinct states `(s, t)` that are not an edge of the
documented table, `TransitionTo t` from state `s` returns false, leaves the
state equal to `s`, and notifies no registered listener. -/
theorem c2_invalid_transition_rejected {L : Type} (listeners : List L)
    (s t : DeviceState) (hne : s ≠ t) (htab : (s, t) ∉ specTransitionTable) :
    transitionTo listeners s t = ⟨false, s, []⟩ := by
  have hvalid : isValidTransition s t = false := by
    cases hv : isValidTransition s t with
    | false => rfl
    | true =>
        rcases (isValidTransition_iff_table s t).mp hv with h | h
        · exact absurd h htab
        · exact absurd h hne
  unfold transitionTo
  rw [if_neg hne, hvalid]
  simp

/-- Witness for C2: with current state `fatalError` and two registered
listeners, `TransitionTo idle` fails, keeps `fatalError`, notifies nobody. -/
theorem c2_witness :
    DeviceState.fatalError ≠ DeviceState.idle ∧
    (DeviceState.fatalError, DeviceState.idle) ∉ specTransitionTable ∧
    transitionTo ([0, 1] : List Nat) .fatalError .idle = ⟨false, .fatalError, []⟩ :=
  ⟨by decide, by decide,
   c2_invalid_transition_rejected [0, 1] .fatalError .idle (by decide) (by decide)⟩

/-- Claim C3: `TransitionTo s` while the current state is already `s`
returns true, leaves the state unchanged, and invokes zero listeners. -/
theorem c3_self_transition_noop {L : Type} (listeners : List L) (s : DeviceState) :
    transitionTo listeners s s = ⟨true, s, []⟩ := by
  unfold transitionTo
  rw [if_pos rfl]

/-- Claim C10: no transition from a non-fatal state targets `fatalError`:
`TransitionTo fatalError` fails and leaves the state unchanged, and no
sequence of `TransitionTo` calls starting outside `fatalError` can ever
reach `fatalError`. -/
theorem c10_fatal_unreachable :
    (∀ (L : Type) (listeners : List L) (s : DeviceState),
       s ≠ DeviceState.fatalError →
       transitionTo listeners s .fatalError = ⟨false, s, []⟩) ∧
    (∀ (targets : List DeviceState) (s : DeviceState),
       s ≠ DeviceState.fatalError → runSeq targets s ≠ DeviceState.fatalError) := by
  constructor
  · intro L listeners s hs
    have hvalid : isValidTransition s .fatalError = false := by
      revert hs
      revert s
      decide
    unfold transitionTo
    rw [if_neg hs, hvalid]
    simp
  · intro targets
    induction targets with
    | nil => intro s hs; exact hs
    | cons t rest ih =>
        intro s hs
        exact ih (applyTransition s t) (applyTransition_ne_fatal s t hs)

/-- Witness for C10: from `idle`, transitioning to `fatalError` fails with
listeners registered, and a concrete call sequence that tries to sneak into
`fatalError` ends elsewhere. -/
theorem c10_witness :
    transitionTo ([0, 1] : List Nat) .idle .fatalError = ⟨false, .idle, []⟩ ∧
    runSeq [.connecting, .fatalError, .listening] .idle ≠ DeviceState.fatalError :=
  ⟨c10_fatal_unreachable.1 Nat [0, 1] .idle (by decide),
   c10_fatal_unreachable.2 [.connecting, .fatalError, .listening] .idle (by decide)⟩

/-- The event flags of the main loop (`MAIN_EVENT_*` bits in
`application.h`, as used by `Application::Run`). -/
inductive MainEvent
  | error
  | networkConnected
  | networkDisconnected
  | activationDone
  | stateChanged
  | toggleChat
  | startListening
  | stopListening
  | sendAudio
  | wakeWordDetected
  | vadChange
  | schedule
  | clockTick
  deriving DecidableEq, Fintype, Repr

/-- The fixed order in which `Application::Run` checks the event bits of
one wake: the textual order of the `if (bits & MAIN_EVENT_...)` blocks. -/
def handlerOrder : List MainEvent :=
  [.error, .networkConnected, .networkDisconnected, .activationDone,
   .stateChanged, .toggleChat, .startListening, .stopListening,
   .sendAudio, .wakeWordDetected, .vadChange, .schedule, .clockTick]

/-- One dispatcher pass over an observed set of flags: `Run` atomically
clears all set bits (`xEventGroupWaitBits` with clear-on-exit) and then
runs the handler of each set flag in the fixed `handlerOrder`. The input is
the set of flags observed at the wake; a set carries no raise order, so the
pass depends only on which flags were raised, never on when. -/
def dispatcherPass (bits : MainEvent → Bool) : List MainEvent :=
  handlerOrder.filter bits

/-- Claim C5: within a single dispatcher pass the handlers of the set flags
run as a subsequence of the fixed priority order, whatever the set of
flags; in particular when the error, network-disconnected and send-audio
flags are all set, the error handler runs first of the three, then the
network-disconnected handler, then the send-audio handler. -/
theorem c5_dispatcher_priority_order (bits : MainEvent → Bool)
    (he : bits .error = true) (hn : bits .networkDisconnected = true)
    (hs : bits .sendAudio = true) :
    (dispatcherPass bits).Sublist handlerOrder ∧
    ([MainEvent.error, .networkDisconnected, .sendAudio] : List MainEvent).Sublist
      (dispatcherPass bits) := by
  constructor
  · exact List.filter_sublist handlerOrder
  · have hsub : ([MainEvent.error, .networkDisconnected, .sendAudio] :
        List MainEvent).Sublist handlerOrder := by
      decide
    have hfil : ([MainEvent.error, .networkDisconnected, .sendAudio] :
        List MainEvent).filter bits = [.error, .networkDisconnected, .sendAudio] := by
      simp [List.filter, he, hn, hs]
    have h := hsub.filter bits
    rw [hfil] at h
    exact h

/-- Witness for C5: with exactly the error, network-disconnected and
send-audio flags set, the pass runs them in that order. -/
theorem c5_witness :
    ([MainEvent.error, .networkDisconnected, .sendAudio] : List MainEvent).Sublist
      (dispatcherPass (fun e =>
        e = .error || e = .networkDisconnected || e = .sendAudio)) :=
  (c5_dispatcher_priority_order
    (fun e => e = .error || e = .networkDisconnected || e = .sendAudio)
    (by decide) (by decide) (by decide)).2

/-- Embeds the body of the schedule-flag drain in `Application::Run`: the
captured task list is walked in order; each executed task may call
`Application::Schedule`, which appends to the (fresh) pending queue.
`spawn t` is the list of tasks that running `t` enqueues, in the order it
enqueues them. Returns the list of executed tasks in execution order,
paired with the pending queue left for the next pass. -/
def runTasks {τ : Type} (spawn : τ → List τ) :
    List τ → List τ → List τ × List τ
  | [], pending => ([], pending)
  | t :: rest, pending =>
      let r := runTasks spawn rest (pending ++ spawn t)
      (t :: r.1, r.2)

/-- One processing of the schedule flag: `Run` moves the whole pending
queue out under the mutex (leaving it empty) and then executes every
captured task. -/
def schedulePass {τ : Type} (spawn : τ → List τ) (q : List τ) : List τ × List τ :=
  runTasks spawn q []

/-- Helper: `runTasks` executes exactly the captured tasks in order, and the
queue left behind is the prior pending plus everything the tasks spawned. -/
lemma runTasks_eq {τ : Type} (spawn : τ → List τ) :
    ∀ (q pending : List τ),
      runTasks spawn q pending = (q, pending ++ q.flatMap spawn) := by
  intro q
  induction q with
  | nil => intro pending; simp [runTasks]
  | cons t rest ih =>
      intro pending
      simp [runTasks, ih (pending ++ spawn t), List.flatMap_cons, List.append_assoc]

/-- Claim C6: processing the schedule flag takes ownership of the whole
pending queue at once and runs exactly the tasks enqueued before the drain,
in FIFO order; any task enqueued from inside a running task is not executed
in this drain but lands in the queue for a later pass. -/
theorem c6_schedule_drain_isolation {τ : Type} (spawn : τ → List τ) (q : List τ) :
    (schedulePass spawn q).1 = q ∧
    (schedulePass spawn q).2 = q.flatMap spawn ∧
    ∀ t ∈ q, ∀ u ∈ spawn t, u ∈ (schedulePass spawn q).2 := by
  have h := runTasks_eq spawn q []
  refine ⟨by rw [schedulePass, h], by rw [schedulePass, h]; rfl, ?_⟩
  intro t ht u hu
  rw [schedulePass, h]
  simp only [List.nil_append, List.mem_flatMap]
  exact ⟨t, ht, hu⟩

/-- Witness for C6: with tasks `1, 2` pending where each task `n` enqueues
task `n + 10`, the drain executes `[1, 2]` and defers `[11, 12]`. -/
theorem c6_witness :
    (schedulePass (fun n => [n + 10]) ([1, 2] : List Nat)).1 = [1, 2] ∧
    (schedulePass (fun n => [n + 10]) ([1, 2] : List Nat)).2 = [11, 12] ∧
    (11 : Nat) ∈ (schedulePass (fun n => [n + 10]) ([1, 2] : List Nat)).2 := by
  have h := c6_schedule_drain_isolation (fun n => [n + 10]) ([1, 2] : List Nat)
  exact ⟨h.1, h.2.1.trans (by decide), h.2.2 1 (by decide) 11 (by decide)⟩

/-- Embeds the send-audio block of `Application::Run`: pop packets from the
send queue while any remain; each popped packet is handed to
`Protocol::SendAudio` when a protocol instance exists, and the loop breaks
on the first false return. Without a protocol instance the popped packets
are simply dropped. Returns the packets handed to `SendAudio` (in order)
and the contents left in the send queue. -/
def processSendAudio {π : Type} (hasProtocol : Bool) (sendOk : π → Bool) :
    List π → List π × List π
  | [] => ([], [])
  | p :: rest =>
      if hasProtocol then
        if sendOk p then
          let r := processSendAudio hasProtocol sendOk rest
          (p :: r.1, r.2)
        else
          ([p], rest)
      else
        processSendAudio hasProtocol sendOk rest

/-- Claim C7: the send-audio handler forwards queued packets to the
protocol in order and stops at the first false return from `SendAudio`:
if the packets before `p` are all accepted and `p` is refused, exactly the
packets up to and including `p` were handed over and everything after `p`
remains in the send queue for a later send-audio flag. -/
theorem c7_send_audio_backpressure {π : Type} (sendOk : π → Bool)
    (pre post : List π) (p : π)
    (hpre : ∀ q ∈ pre, sendOk q = true) (hp : sendOk p = false) :
    processSendAudio true sendOk (pre ++ p :: post) = (pre ++ [p], post) := by
  induction pre with
  | nil => simp [processSendAudio, hp]
  | cons q rest ih =>
      have hq : sendOk q = true := hpre q (by simp)
      have hrest : ∀ r ∈ rest, sendOk r = true := fun r hr => hpre r (by simp [hr])
      simp [processSendAudio, hq, ih hrest]

/-- Witness for C7: with the queue `[1, 2, 5, 7, 8]` and a protocol that
refuses packets of size five and up, packets `1, 2` are sent, `5` is the
refused attempt, and `7, 8` stay queued. -/
theorem c7_witness :
    (∀ q ∈ ([1, 2] : List Nat), decide (q < 5) = true) ∧
    processSendAudio true (fun n => decide (n < 5)) [1, 2, 5, 7, 8] =
      ([1, 2, 5], [7, 8]) :=
  ⟨by decide,
   c7_send_audio_backpressure (fun n => decide (n < 5)) [1, 2] [7, 8] 5
     (by decide) (by decide)⟩

/-- Listening modes (`kListeningMode*` in the firmware). -/
inductive ListeningMode
  | manualStop
  | autoStop
  | realtime
  deriving DecidableEq, Fintype, Repr

/-- Echo-cancellation modes (`kAec*` in the firmware). -/
inductive AecMode
  | off
  | onDeviceSide
  | onServerSide
  deriving DecidableEq, Fintype, Repr

/-- Abort reasons passed to `Protocol::SendAbortSpeaking`. -/
inductive AbortReason
  | reasonNone
  | reasonWakeWordDetected
  deriving DecidableEq, Repr

/-- The collaborator calls an `Application` event handler can make, in the
order it makes them. -/
inductive AppAction
  | enableAudioTesting (flag : Bool)
  | encodeWakeWord
  | openAudioChannel
  | enableWakeWordDetection (flag : Bool)
  | sendWakeWordPackets
  | sendWakeWordDetected
  | setPopupFlag
  | abortSpeaking (reason : AbortReason)
  | closeAudioChannel
  | sendStopListening
  deriving DecidableEq, Repr

/-- The slice of `Application` an event handler reads: the current device
state, whether a protocol instance exists, whether its audio channel is
already open, the value `OpenAudioChannel()` would return if called, the
configured AEC mode, the current listening mode, and whether the firmware
was built with `CONFIG_SEND_WAKE_WORD_DATA`. -/
structure AppCtx where
  state : DeviceState
  protocolExists : Bool
  channelOpened : Bool
  openResult : Bool
  aecMode : AecMode
  listeningMode : ListeningMode
  sendWakeWordData : Bool
  deriving DecidableEq, Repr

/-- What a handler left behind: the device state after its `SetDeviceState`
calls (each one routed through `transitionTo`), the listening mode, and the
collaborator calls it made, in order. -/
structure HandlerOut where
  state : DeviceState
  listeningMode : ListeningMode
  actions : List AppAction
  deriving DecidableEq, Repr

/-- The listening mode `Application` picks after a wake word or toggle-chat
from idle: `kListeningModeAutoStop` when AEC is off, else realtime. -/
def pickAutoMode (aec : AecMode) : ListeningMode :=
  if aec = .off then .autoStop else .realtime

/-- Embeds `Application::HandleToggleChatEvent`: special-cases activating,
wifi-configuring and audio-testing; bails out without a protocol; from idle
opens the channel if needed (transitioning to connecting, returning early
when `OpenAudioChannel` fails) and then sets the listening mode (which
transitions to listening); from speaking aborts; from listening closes the
channel. -/
def handleToggleChat (c : AppCtx) : HandlerOut :=
  if c.state = .activating then
    ⟨applyTransition c.state .idle, c.listeningMode, []⟩
  else if c.state = .wifiConfiguring then
    ⟨applyTransition c.state .audioTesting, c.listeningMode, [.enableAudioTesting true]⟩
  else if c.state = .audioTesting then
    ⟨applyTransition c.state .wifiConfiguring, c.listeningMode, [.enableAudioTesting false]⟩
  else if !c.protocolExists then
    ⟨c.state, c.listeningMode, []⟩
  else if c.state = .idle then
    if !c.channelOpened then
      let st1 := applyTransition c.state .connecting
      if !c.openResult then
        ⟨st1, c.listeningMode, [.openAudioChannel]⟩
      else
        ⟨applyTransition st1 .listening, pickAutoMode c.aecMode, [.openAudioChannel]⟩
    else
      ⟨applyTransition c.state .listening, pickAutoMode c.aecMode, []⟩
  else if c.state = .speaking then
    ⟨c.state, c.listeningMode, [.abortSpeaking .reasonNone]⟩
  else if c.state = .listening then
    ⟨c.state, c.listeningMode, [.closeAudioChannel]⟩
  else
    ⟨c.state, c.listeningMode, []⟩

/-- Embeds `Application::HandleStartListeningEvent`: like toggle-chat but
always picks manual-stop mode, and from speaking aborts then switches to
listening in manual-stop mode. -/
def handleStartListening (c : AppCtx) : HandlerOut :=
  if c.state = .activating then
    ⟨applyTransition c.state .idle, c.listeningMode, []⟩
  else if c.state = .wifiConfiguring then
    ⟨applyTransition c.state .audioTesting, c.listeningMode, [.enableAudioTesting true]⟩
  else if !c.protocolExists then
    ⟨c.state, c.listeningMode, []⟩
  else if c.state = .idle then
    if !c.channelOpened then
      let st1 := applyTransition c.state .connecting
      if !c.openResult then
        ⟨st1, c.listeningMode, [.openAudioChannel]⟩
      else
        ⟨applyTransition st1 .listening, .manualStop, [.openAudioChannel]⟩
    else
      ⟨applyTransition c.state .listening, .manualStop, []⟩
  else if c.state = .speaking then
    ⟨applyTransition c.state .listening, .manualStop, [.abortSpeaking .reasonNone]⟩
  else
    ⟨c.state, c.listeningMode, []⟩

/-- Embeds `Application::HandleWakeWordDetectedEvent`: bails out without a
protocol; from idle encodes the wake word, opens the channel if needed
(transitioning to connecting; on `OpenAudioChannel` failure re-enables
wake-word detection and returns), then either streams the wake word to the
server (`CONFIG_SEND_WAKE_WORD_DATA`) or flags the popup sound, and sets
the listening mode; from speaking aborts with the wake-word reason; from
activating returns to idle. -/
def handleWakeWord (c : AppCtx) : HandlerOut :=
  if !c.protocolExists then
    ⟨c.state, c.listeningMode, []⟩
  else if c.state = .idle then
    if !c.channelOpened then
      let st1 := applyTransition c.state .connecting
      if !c.openResult then
        ⟨st1, c.listeningMode,
         [.encodeWakeWord, .openAudioChannel, .enableWakeWordDetection true]⟩
      else if c.sendWakeWordData then
        ⟨applyTransition st1 .listening, pickAutoMode c.aecMode,
         [.encodeWakeWord, .openAudioChannel, .sendWakeWordPackets, .sendWakeWordDetected]⟩
      else
        ⟨applyTransition st1 .listening, pickAutoMode c.aecMode,
         [.encodeWakeWord, .openAudioChannel, .setPopupFlag]⟩
    else if c.sendWakeWordData then
      ⟨applyTransition c.state .listening, pickAutoMode c.aecMode,
       [.encodeWakeWord, .sendWakeWordPackets, .sendWakeWordDetected]⟩
    else
      ⟨applyTransition c.state .listening, pickAutoMode c.aecMode,
       [.encodeWakeWord, .setPopupFlag]⟩
  else if c.state = .speaking then
    ⟨c.state, c.listeningMode, [.abortSpeaking .reasonWakeWordDetected]⟩
  else if c.state = .activating then
    ⟨applyTransition c.state .idle, c.listeningMode, []⟩
  else
    ⟨c.state, c.listeningMode, []⟩

/-- Embeds the task scheduled by the incoming-JSON handler for a
`{"type":"tts","state":"start"}` event: clear the aborted flag and
`SetDeviceState(kDeviceStateSpeaking)`. Only the state effect is modelled. -/
def handleTtsStart (st : DeviceState) : DeviceState :=
  applyTransition st .speaking

/-- Embeds the task scheduled by the incoming-JSON handler for a
`{"type":"tts","state":"stop"}` event: if the device is speaking, go to
idle in manual-stop mode and to listening in every other mode. -/
def handleTtsStop (st : DeviceState) (mode : ListeningMode) : DeviceState :=
  if st = .speaking then
    if mode = .manualStop then applyTransition st .idle
    else applyTransition st .listening
  else
    st

/-- Embeds `Application::CanEnterSleepMode`: false unless the state is
idle; false when a protocol instance exists with an open audio channel;
false when the audio service is not idle; otherwise true. -/
def canEnterSleepMode (st : DeviceState)
    (protocolExists channelOpened audioIdle : Bool) : Bool :=
  if st ≠ DeviceState.idle then false
  else if protocolExists && channelOpened then false
  else if !audioIdle then false
  else true

/-- Counterexample for C4: from idle with a protocol whose channel is
closed and whose `OpenAudioChannel` fails, the toggle-chat handler does not
leave the device in idle (it leaves it in connecting) and does not
re-enable wake-word detection, contrary to the claim. -/
theorem c4_counterexample :
    (handleToggleChat ⟨.idle, true, false, false, .off, .manualStop, false⟩).state ≠
      DeviceState.idle ∧
    AppAction.enableWakeWordDetection true ∉
      (handleToggleChat ⟨.idle, true, false, false, .off, .manualStop, false⟩).actions := by
  decide

/-- Claim C4 (amended): whenever `OpenAudioChannel` fails during a
toggle-chat, start-listening or wake-word-detected handler invoked from
idle, the handler aborts the open attempt without transitioning to
listening, leaving the device in connecting; only the wake-word-detected
handler re-enables wake-word detection — the toggle-chat and
start-listening handlers do not touch it. -/
theorem c4_open_failure_amended :
    ∀ (aec : AecMode) (m : ListeningMode) (swd : Bool),
      (handleToggleChat ⟨.idle, true, false, false, aec, m, swd⟩).state =
        DeviceState.connecting ∧
      (handleStartListening ⟨.idle, true, false, false, aec, m, swd⟩).state =
        DeviceState.connecting ∧
      (handleWakeWord ⟨.idle, true, false, false, aec, m, swd⟩).state =
        DeviceState.connecting ∧
      AppAction.enableWakeWordDetection true ∈
        (handleWakeWord ⟨.idle, true, false, false, aec, m, swd⟩).actions ∧
      AppAction.enableWakeWordDetection true ∉
        (handleToggleChat ⟨.idle, true, false, false, aec, m, swd⟩).actions ∧
      AppAction.enableWakeWordDetection true ∉
        (handleStartListening ⟨.idle, true, false, false, aec, m, swd⟩).actions := by
  decide

/-- Claim C8: while the device is speaking, a tts stop event moves it to
idle in manual-stop mode and to listening in every other mode, and a tts
start event keeps it in (transitions it to) speaking. -/
theorem c8_tts_events_while_speaking :
    ∀ m : ListeningMode,
      handleTtsStop .speaking m =
        (if m = .manualStop then DeviceState.idle else DeviceState.listening) ∧
      handleTtsStart .speaking = DeviceState.speaking := by
  decide

/-- Claim C9: `CanEnterSleepMode` returns true iff the state is idle, no
protocol audio channel is open (vacuously when no protocol instance
exists), and the audio service is idle. -/
theorem c9_can_enter_sleep_iff :
    ∀ (st : DeviceState) (p c a : Bool),
      canEnterSleepMode st p c a = true ↔
        (st = DeviceState.idle ∧ (p = true → c = false) ∧ a = true) := by
  decide
